import Mathlib

set_option maxHeartbeats 1000000
set_option maxRecDepth 100000

/-
Verification development for src/jira_auto_reply.py.

The Python program is embedded shallowly:
  * `datetime.time` values become `PyTime` (hour / minute / second with the
    lexicographic comparison Python uses on time objects; the microsecond
    component, always compared last, is omitted and would not change any
    comparison below).
  * `datetime` timestamps become `Nat` (seconds since an arbitrary epoch);
    `isoformat` is modelled as the injective decimal rendering of that
    number and `fromisoformat` as its partial inverse.
  * The process environment is a function `String → Option String`;
    exceptions become `Except`.
  * All external effects (HTTP requests against the ticketing and
    text-generation APIs, the watermark file) are mediated by a `World`
    record of oracles; every operation returns the list of HTTP calls it
    issued together with its `Except` outcome, so the orchestrator's
    observable behaviour (calls made, watermark written, exit) is a pure
    function of the environment and the world.
-/

/-- Python `datetime.time` as used by the program: hour, minute, second.
Comparison of Python `time` objects is lexicographic on the components. -/
structure PyTime where
  hour : Nat
  minute : Nat
  second : Nat
  deriving DecidableEq

/-- Lexicographic `<=` on `PyTime`, mirroring Python's comparison of
`datetime.time` objects. -/
def PyTime.le (a b : PyTime) : Bool :=
  if a.hour < b.hour then true
  else if b.hour < a.hour then false
  else if a.minute < b.minute then true
  else if b.minute < a.minute then false
  else decide (a.second ≤ b.second)

/-- Seconds since midnight of a `PyTime`; used to state window claims
numerically. -/
def PyTime.toSec (t : PyTime) : Nat :=
  t.hour * 3600 + t.minute * 60 + t.second

/-- Time-of-day of an epoch-seconds timestamp (`datetime.time()` of `now`). -/
def timeOfDay (ts : Nat) : PyTime :=
  ⟨ts / 3600 % 24, ts / 60 % 60, ts % 60⟩

/-- Python `str.split` with a single-character separator, on char lists
(`raw_value.split(":")` in `parse_time_env`). -/
def splitChar (sep : Char) : List Char → List (List Char)
  | [] => [[]]
  | c :: cs =>
    match splitChar sep cs with
    | [] => [[]]
    | part :: parts =>
      if c = sep then [] :: part :: parts else (c :: part) :: parts

/-- Whitespace characters stripped by Python's `int()` / `str.strip()`. -/
def pyWhitespace (c : Char) : Bool :=
  c = ' ' ∨ c = '\t' ∨ c = '\n' ∨ c = '\r' ∨ c = '\x0b' ∨ c = '\x0c'

/-- Strip leading and trailing whitespace from a char list (Python
`str.strip()` and the stripping `int()` performs on its argument). -/
def pyTrimL (l : List Char) : List Char :=
  ((l.dropWhile pyWhitespace).reverse.dropWhile pyWhitespace).reverse

/-- Python `str.strip()` on strings. -/
def pyStrip (s : String) : String := ⟨pyTrimL s.data⟩

/-- Decimal digits of Python `int()` after the optional sign: one or more
ASCII digits with single underscores allowed strictly between digits.
Continuation after the first digit; `acc` is the value read so far. -/
def digitsCont (acc : Nat) : List Char → Option Nat
  | [] => some acc
  | c :: rest =>
    if c = '_' then
      match rest with
      | [] => none
      | c2 :: rest2 =>
        if c2.isDigit then digitsCont (acc * 10 + (c2.toNat - 48)) rest2 else none
    else if c.isDigit then digitsCont (acc * 10 + (c.toNat - 48)) rest
    else none

/-- Value of a nonempty digit group (see `digitsCont`). -/
def digitsValL : List Char → Option Nat
  | [] => none
  | c :: rest => if c.isDigit then digitsCont (c.toNat - 48) rest else none

/-- Python `int(s)` on a char list: strip whitespace, optional sign, then a
nonempty digit group. Returns `none` where Python raises `ValueError`. -/
def pyIntL (l : List Char) : Option Int :=
  match pyTrimL l with
  | [] => none
  | c :: rest =>
    if c = '+' then (digitsValL rest).map Int.ofNat
    else if c = '-' then (digitsValL rest).map (fun n => -(n : Int))
    else (digitsValL (c :: rest)).map Int.ofNat

/-- Body of `parse_time_env` applied to the resolved raw string: split on
`":"` into exactly two parts, convert both with `int()`, and build
`time(h, m)` (which requires `0 ≤ h ≤ 23` and `0 ≤ m ≤ 59`); any failure
raises `ValueError "Invalid time value for {name}: {raw}"`. -/
def parse_time_raw (name raw : String) : Except String PyTime :=
  match splitChar ':' raw.data with
  | [hs, ms] =>
    match pyIntL hs, pyIntL ms with
    | some h, some m =>
      if 0 ≤ h ∧ h ≤ 23 ∧ 0 ≤ m ∧ m ≤ 59 then Except.ok ⟨h.toNat, m.toNat, 0⟩
      else Except.error ("Invalid time value for " ++ name ++ ": " ++ raw)
    | _, _ => Except.error ("Invalid time value for " ++ name ++ ": " ++ raw)
  | _ => Except.error ("Invalid time value for " ++ name ++ ": " ++ raw)

/-- The process environment: `os.getenv`. -/
abbrev Env := String → Option String

/-- `parse_time_env(env_name, default_value)`: read the variable (falling
back to the default string) and parse it as `"HH:MM"`. -/
def parse_time_env (env : Env) (name defaultValue : String) : Except String PyTime :=
  parse_time_raw name ((env name).getD defaultValue)

/-- Inner helper `get_env` of `load_config`: return the variable's value or
the default; raise `ValueError` naming the variable when both are absent. -/
def get_env (env : Env) (name : String) (default : Option String) : Except String String :=
  match env name with
  | some value => Except.ok value
  | none =>
    match default with
    | some d => Except.ok d
    | none => Except.error ("Missing required environment variable: " ++ name)

/-- Python `str.lower()` (ASCII case fold, as used on `USE_CONFLUENCE_KB`). -/
def pyLower (s : String) : String := ⟨s.data.map Char.toLower⟩

/-- The frozen `Config` dataclass. -/
structure Config where
  jira_base_url : String
  jira_email : String
  jira_api_token : String
  jira_assignee_account_id : String
  project_key : String
  assignee_fallback : String
  status_field_id : String
  todo_transition : String
  in_progress_transition : String
  waiting_transition : String
  use_confluence_kb : Bool
  confluence_base_url : String
  confluence_space_key : String
  openai_api_key : Option String
  openai_model : String
  timezone : Option String
  window_start : PyTime
  window_end : PyTime
  last_run_path : String
  deriving DecidableEq

/-- `load_config()`: window bounds are parsed first (source lines 48-49),
then the `Config(...)` constructor arguments are evaluated in field order;
the first failing step's `ValueError` propagates. -/
def load_config (env : Env) : Except String Config :=
  match parse_time_env env "WINDOW_START" "05:30" with
  | Except.error e => Except.error e
  | Except.ok window_start =>
  match parse_time_env env "WINDOW_END" "17:30" with
  | Except.error e => Except.error e
  | Except.ok window_end =>
  match get_env env "JIRA_BASE_URL" none with
  | Except.error e => Except.error e
  | Except.ok jira_base_url =>
  match get_env env "JIRA_EMAIL" none with
  | Except.error e => Except.error e
  | Except.ok jira_email =>
  match get_env env "JIRA_API_TOKEN" none with
  | Except.error e => Except.error e
  | Except.ok jira_api_token =>
  match get_env env "JIRA_ASSIGNEE_ACCOUNT_ID" none with
  | Except.error e => Except.error e
  | Except.ok jira_assignee_account_id =>
  match get_env env "PROJECT_KEY" (some "TS") with
  | Except.error e => Except.error e
  | Except.ok project_key =>
  match get_env env "ASSIGNEE_FALLBACK" (some "currentUser()") with
  | Except.error e => Except.error e
  | Except.ok assignee_fallback =>
  match get_env env "STATUS_FIELD_ID" (some "customfield_10353") with
  | Except.error e => Except.error e
  | Except.ok status_field_id =>
  match get_env env "STATUS_TRANSITION_TODO_TO_IN_PROGRESS" (some "To-Do") with
  | Except.error e => Except.error e
  | Except.ok todo_transition =>
  match get_env env "STATUS_TRANSITION_IN_PROGRESS_TO_WAITING" (some "Iprogress") with
  | Except.error e => Except.error e
  | Except.ok in_progress_transition =>
  match get_env env "STATUS_TRANSITION_WAITING_TO_IN_PROGRESS" (some "Wating for clinet") with
  | Except.error e => Except.error e
  | Except.ok waiting_transition =>
  match get_env env "USE_CONFLUENCE_KB" (some "false") with
  | Except.error e => Except.error e
  | Except.ok use_confluence_kb_raw =>
  match get_env env "CONFLUENCE_BASE_URL" (some "https://certifyos.atlassian.net/wiki") with
  | Except.error e => Except.error e
  | Except.ok confluence_base_url =>
  match get_env env "CONFLUENCE_SPACE_KEY" (some "TS") with
  | Except.error e => Except.error e
  | Except.ok confluence_space_key =>
  match get_env env "OPENAI_MODEL" (some "gpt-4o-mini") with
  | Except.error e => Except.error e
  | Except.ok openai_model =>
  match get_env env "LAST_RUN_PATH" (some "last_run.json") with
  | Except.error e => Except.error e
  | Except.ok last_run_path =>
    Except.ok
      { jira_base_url := jira_base_url
        jira_email := jira_email
        jira_api_token := jira_api_token
        jira_assignee_account_id := jira_assignee_account_id
        project_key := project_key
        assignee_fallback := assignee_fallback
        status_field_id := status_field_id
        todo_transition := todo_transition
        in_progress_transition := in_progress_transition
        waiting_transition := waiting_transition
        use_confluence_kb := pyLower use_confluence_kb_raw == "true"
        confluence_base_url := confluence_base_url
        confluence_space_key := confluence_space_key
        openai_api_key := env "OPENAI_API_KEY"
        openai_model := openai_model
        timezone := env "TIMEZONE"
        window_start := window_start
        window_end := window_end
        last_run_path := last_run_path }

/-- `within_reply_window(config, now)` on the window bounds and `now.time()`. -/
def within_reply_window (start endT current : PyTime) : Bool :=
  if PyTime.le start endT then PyTime.le start current && PyTime.le current endT
  else PyTime.le start current || PyTime.le current endT

/-- Decimal digit character (`'0' + r`). -/
def digitChar (r : Nat) : Char := Char.ofNat (48 + r)

/-- Big-endian decimal digits of `n`, fuel-based (`fuel > n` suffices). -/
def natDigitsAux : Nat → Nat → List Char → List Char
  | 0, _, acc => acc
  | fuel + 1, n, acc =>
    if n < 10 then digitChar n :: acc
    else natDigitsAux fuel (n / 10) (digitChar (n % 10) :: acc)

/-- Big-endian decimal digits of `n`. -/
def natDigits (n : Nat) : List Char := natDigitsAux (n + 1) n []

/-- `datetime.isoformat()` in the epoch-seconds timestamp model: the
injective decimal rendering of the timestamp. -/
def isoformat (ts : Nat) : String := ⟨natDigits ts⟩

/-- The exact file contents written by `save_last_run`:
`json.dump({"last_run": timestamp.isoformat()})`. -/
def save_format (ts : Nat) : String :=
  "\x7b\"last_run\": \"" ++ isoformat ts ++ "\"\x7d"

/-- Drop an expected literal prefix from a char list. -/
def stripPrefixL : List Char → List Char → Option (List Char)
  | [], l => some l
  | _ :: _, [] => none
  | p :: ps, c :: cs => if c = p then stripPrefixL ps cs else none

/-- Consume leading decimal digits, folding their value onto `acc`;
returns the value and the unconsumed tail. -/
def takeDigitsVal : List Char → Nat → Nat × List Char
  | [], acc => (acc, [])
  | c :: rest, acc =>
    if c.isDigit then takeDigitsVal rest (acc * 10 + (c.toNat - 48))
    else (acc, c :: rest)

/-- Parse of a watermark file's contents: `json.load` of the
`save_last_run` shape followed by `datetime.fromisoformat` of the value at
the `"last_run"` key; `none` where Python raises. -/
def parseLastRun (content : String) : Option Nat :=
  match stripPrefixL ("\x7b\"last_run\": \"").data content.data with
  | none => none
  | some [] => none
  | some (c :: rest) =>
    if c.isDigit then
      match takeDigitsVal (c :: rest) 0 with
      | (v, trail) => if trail = ['"', '\x7d'] then some v else none
    else none

/-- A ticket as the program reads it: `issue.get("key")`,
`issue.get("fields", {}).get("summary")` / `.get("description")`. -/
structure Issue where
  key : Option String
  summary : Option String
  description : Option String
  deriving DecidableEq

/-- A workflow transition as returned by the transitions endpoint. -/
structure Transition where
  id : String
  name : String
  deriving DecidableEq

/-- One HTTP request issued by the program. `transitionPost key id` is the
`POST .../issue/{key}/transitions` request with JSON body
`\x7b"transition": \x7b"id": id\x7d\x7d`. -/
inductive Call where
  | searchIssues (jql : String)
  | addComment (key body : String)
  | assignIssue (key accountId : String)
  | listTransitions (key : String)
  | transitionPost (key transitionId : String)
  | openaiChat (prompt : String)
  deriving DecidableEq

/-- Uncaught exceptions that end a run: `requests` HTTP errors from the
ticketing API (`raise_for_status`), HTTP errors from the text-generation
API, and the `ValueError` raised for a missing workflow transition. -/
inductive RunError where
  | ticketingApi
  | generationApi
  | transitionNotFound (name key : String)
  deriving DecidableEq

/-- Oracles for every external effect of one run. -/
structure World where
  now : Nat
  fileContent : String → Option String
  searchResult : Except Unit (List Issue)
  commentOk : String → Bool
  assignOk : String → Bool
  listTransitionsOk : String → Bool
  transitionsFor : String → List Transition
  transitionPostOk : String → String → Bool
  openaiResult : Issue → Except Unit String

/-- `load_last_run(path)`: missing file, or any failure parsing its
contents, yields `now - 24h` (86400 s, floored at 0 in the `Nat` model);
otherwise the stored timestamp. -/
def load_last_run (w : World) (path : String) : Nat :=
  match w.fileContent path with
  | none => w.now - 86400
  | some content =>
    match parseLastRun content with
    | some ts => ts
    | none => w.now - 86400

/-- The JQL string built by `jira_search_issues`, chunked exactly as the
source f-string lines are. -/
def searchJql (c : Config) (last_run : Nat) : String :=
  ("project = \"" ++ c.project_key ++ "\" ")
    ++ "AND assignee is EMPTY "
    ++ "AND status = \"To-Do\" "
    ++ "AND statusCategory != Done "
    ++ ("AND updated >= \"" ++ isoformat last_run ++ "\" ")
    ++ "ORDER BY created ASC"

/-- `jira_search_issues(config, last_run)`: one GET carrying the JQL;
non-2xx raises, otherwise the response's `issues` list. -/
def jira_search_issues (w : World) (c : Config) (last_run : Nat) :
    List Call × Except RunError (List Issue) :=
  ([Call.searchIssues (searchJql c last_run)],
   match w.searchResult with
   | Except.ok issues => Except.ok issues
   | Except.error _ => Except.error RunError.ticketingApi)

/-- `jira_add_comment(config, issue_key, body)`. -/
def jira_add_comment (w : World) (key body : String) :
    List Call × Except RunError Unit :=
  ([Call.addComment key body],
   if w.commentOk key then Except.ok () else Except.error RunError.ticketingApi)

/-- `jira_assign_issue(config, issue_key, assignee_account_id)`. -/
def jira_assign_issue (w : World) (key accountId : String) :
    List Call × Except RunError Unit :=
  ([Call.assignIssue key accountId],
   if w.assignOk key then Except.ok () else Except.error RunError.ticketingApi)

/-- `jira_list_transitions(config, issue_key)`. -/
def jira_list_transitions (w : World) (key : String) :
    List Call × Except RunError (List Transition) :=
  ([Call.listTransitions key],
   if w.listTransitionsOk key then Except.ok (w.transitionsFor key)
   else Except.error RunError.ticketingApi)

/-- Sequence two traced fallible steps (exception propagation plus
concatenation of the HTTP calls both issued). -/
def thenRun {α β : Type} (x : List Call × Except RunError α)
    (f : α → List Call × Except RunError β) : List Call × Except RunError β :=
  match x with
  | (t, Except.error e) => (t, Except.error e)
  | (t, Except.ok a) =>
    match f a with
    | (t2, r) => (t ++ t2, r)

/-- `next((item for item in transitions if item.get("name") == transition_name), None)`. -/
def findTransition (transitions : List Transition) (name : String) : Option Transition :=
  transitions.find? (fun item => item.name == name)

/-- `jira_transition_issue(config, issue_key, transition_name)`: list the
available transitions, look the name up exactly (case-sensitive); raise
`ValueError` (no POST) when absent, otherwise POST the transition's id. -/
def jira_transition_issue (w : World) (key name : String) :
    List Call × Except RunError Unit :=
  thenRun (jira_list_transitions w key) (fun transitions =>
    match findTransition transitions name with
    | none => ([], Except.error (RunError.transitionNotFound name key))
    | some t =>
      ([Call.transitionPost key t.id],
       if w.transitionPostOk key t.id then Except.ok ()
       else Except.error RunError.ticketingApi))

/-- `build_default_reply(issue)`. -/
def build_default_reply (issue : Issue) : String :=
  "Thanks for reaching out! We received **" ++ issue.summary.getD "your ticket"
    ++ "**. Our team will review this shortly and respond with next steps."

/-- The fixed instructional prompt of `generate_ai_reply`. -/
def aiPrompt (issue : Issue) : String :=
  "You are an assistant for support tickets. Draft a concise, friendly "
    ++ "auto-reply acknowledging the ticket and asking for any missing info. "
    ++ "Keep it under 80 words.\n\n"
    ++ "Summary: " ++ issue.summary.getD "" ++ "\n"
    ++ "Description: " ++ issue.description.getD ""

/-- `generate_ai_reply(config, issue)`: without an API key, the
deterministic template; with one, a POST to the chat-completions endpoint
whose trimmed content is returned and whose HTTP failure propagates. -/
def generate_ai_reply (w : World) (c : Config) (issue : Issue) :
    List Call × Except RunError String :=
  match c.openai_api_key with
  | none => ([], Except.ok (build_default_reply issue))
  | some _ =>
    ([Call.openaiChat (aiPrompt issue)],
     match w.openaiResult issue with
     | Except.ok content => Except.ok (pyStrip content)
     | Except.error _ => Except.error RunError.generationApi)

/-- One iteration of the `process_issues` loop body for an issue whose key
is present and nonempty. -/
def process_issue (w : World) (c : Config) (accountId key : String) (issue : Issue) :
    List Call × Except RunError Unit :=
  thenRun (generate_ai_reply w c issue) (fun reply =>
  thenRun (jira_add_comment w key reply) (fun _ =>
  thenRun (jira_assign_issue w key accountId) (fun _ =>
  thenRun (jira_transition_issue w key c.todo_transition) (fun _ =>
  thenRun (jira_transition_issue w key c.in_progress_transition) (fun _ =>
  jira_transition_issue w key c.waiting_transition)))))

/-- `process_issues(config, issues, assignee_account_id)`: issues whose
`key` is falsy are skipped; an exception anywhere propagates (losing the
count); otherwise the number of processed issues is returned. -/
def process_issues (w : World) (c : Config) (issues : List Issue) (accountId : String) :
    List Call × Except RunError Nat :=
  match issues with
  | [] => ([], Except.ok 0)
  | issue :: rest =>
    match issue.key with
    | none => process_issues w c rest accountId
    | some key =>
      if key = "" then process_issues w c rest accountId
      else
        match process_issue w c accountId key issue with
        | (t, Except.error e) => (t, Except.error e)
        | (t, Except.ok _) =>
          match process_issues w c rest accountId with
          | (t2, Except.ok n) => (t ++ t2, Except.ok (n + 1))
          | (t2, Except.error e) => (t ++ t2, Except.error e)

instance {ε α : Type} [DecidableEq ε] [DecidableEq α] : DecidableEq (Except ε α) := fun a b =>
  match a, b with
  | Except.error x, Except.error y =>
    if h : x = y then isTrue (by rw [h]) else isFalse (by intro hh; cases hh; exact h rfl)
  | Except.ok x, Except.ok y =>
    if h : x = y then isTrue (by rw [h]) else isFalse (by intro hh; cases hh; exact h rfl)
  | Except.error _, Except.ok _ => isFalse (by intro h; cases h)
  | Except.ok _, Except.error _ => isFalse (by intro h; cases h)

/-- Observable outcome of one run of `main`. `outcome` is `.ok code` when
the process returns an exit code and `.error e` when an uncaught exception
ends it; `saved` is the timestamp written by `save_last_run`, if reached. -/
structure RunResult where
  outcome : Except RunError Nat
  calls : List Call
  saved : Option Nat
  output : List String
  deriving DecidableEq

/-- `main()`: load configuration (exit 1 on `ValueError`), check the reply
window, load the watermark, search, and either save the watermark and exit
(no candidates), or process the batch and — only after `process_issues`
returns normally — save the watermark. (Named `main_run` because Lean
reserves `main` for an IO entry point.) -/
def main_run (env : Env) (w : World) : RunResult :=
  match load_config env with
  | Except.error msg => ⟨Except.ok 1, [], none, [msg]⟩
  | Except.ok config =>
    if within_reply_window config.window_start config.window_end (timeOfDay w.now) then
      match jira_search_issues w config (load_last_run w config.last_run_path) with
      | (sc, Except.error e) => ⟨Except.error e, sc, none, []⟩
      | (sc, Except.ok issues) =>
        if issues.isEmpty then
          ⟨Except.ok 0, sc, some w.now, ["No matching issues found."]⟩
        else
          match process_issues w config issues config.jira_assignee_account_id with
          | (pc, Except.error e) => ⟨Except.error e, sc ++ pc, none, []⟩
          | (pc, Except.ok n) =>
            ⟨Except.ok 0, sc ++ pc, some w.now,
             ["Processed " ++ toString n ++ " issues."]⟩
    else ⟨Except.ok 0, [], none, ["Outside reply window. Exiting."]⟩

/-- Data of a string concatenation is the concatenation of the data. -/
theorem str_data_append (a b : String) : (a ++ b).data = a.data ++ b.data := by
  cases a; cases b; rfl

/-- Substring containment: `sub` occurs contiguously inside `s`. -/
def ContainsStr (s sub : String) : Prop := sub.data <:+: s.data

instance instDecContainsStr (s sub : String) : Decidable (ContainsStr s sub) := by
  unfold ContainsStr; infer_instance

/-- Containment at an explicit concatenation boundary. -/
theorem containsStr_of_eq (s pre sub post : String)
    (h : s = pre ++ sub ++ post) : ContainsStr s sub := by
  refine ⟨pre.data, post.data, ?_⟩
  rw [h, str_data_append, str_data_append]

/-- Lexicographic comparison of `PyTime` agrees with comparison of seconds
since midnight, provided minutes and seconds are in range. -/
theorem pyTime_le_iff_toSec (a b : PyTime)
    (ha : a.minute < 60 ∧ a.second < 60) (hb : b.minute < 60 ∧ b.second < 60) :
    PyTime.le a b = true ↔ a.toSec ≤ b.toSec := by
  obtain ⟨ham, has⟩ := ha
  obtain ⟨hbm, hbs⟩ := hb
  unfold PyTime.le PyTime.toSec
  split_ifs with h1 h2 h3 h4 <;> simp <;> omega

/-- Characters produced by `digitChar` on `0..9` are ASCII digits. -/
theorem digitChar_isDigit (r : Nat) (h : r < 10) : (digitChar r).isDigit = true := by
  unfold digitChar; interval_cases r <;> decide

/-- Code point of a `digitChar`. -/
theorem digitChar_toNat (r : Nat) (h : r < 10) : (digitChar r).toNat = 48 + r := by
  unfold digitChar; interval_cases r <;> decide

/-- `natDigitsAux` is independent of the fuel once it exceeds `n`. -/
theorem natDigitsAux_fuel (f g n : Nat) (acc : List Char) (hf : n < f) (hg : n < g) :
    natDigitsAux f n acc = natDigitsAux g n acc := by
  induction f generalizing g n acc with
  | zero => omega
  | succ f ih =>
    cases g with
    | zero => omega
    | succ g =>
      show natDigitsAux (f + 1) n acc = natDigitsAux (g + 1) n acc
      unfold natDigitsAux
      by_cases h10 : n < 10
      · simp [h10]
      · have hd : n / 10 < n := Nat.div_lt_self (by omega) (by omega)
        simp only [h10, if_false]
        exact ih g (n / 10) _ (by omega) (by omega)

/-- The accumulator of `natDigitsAux` is simply appended to the digits. -/
theorem natDigitsAux_acc (f n : Nat) (acc : List Char) (h : n < f) :
    natDigitsAux f n acc = natDigitsAux f n [] ++ acc := by
  induction f generalizing n acc with
  | zero => omega
  | succ f ih =>
    show natDigitsAux (f + 1) n acc = natDigitsAux (f + 1) n [] ++ acc
    unfold natDigitsAux
    by_cases h10 : n < 10
    · simp [h10]
    · have hd : n / 10 < n := Nat.div_lt_self (by omega) (by omega)
      simp only [h10, if_false]
      rw [ih (n / 10) _ (by omega), ih (n / 10) [digitChar (n % 10)] (by omega)]
      simp

/-- Digits of a single-digit number. -/
theorem natDigits_base (n : Nat) (h : n < 10) : natDigits n = [digitChar n] := by
  unfold natDigits natDigitsAux
  simp [h]

/-- Digits of a multi-digit number decompose as digits of the quotient
followed by the last digit. -/
theorem natDigits_decomp (n : Nat) (h : ¬ n < 10) :
    natDigits n = natDigits (n / 10) ++ [digitChar (n % 10)] := by
  have hd : n / 10 < n := Nat.div_lt_self (by omega) (by omega)
  unfold natDigits
  conv_lhs => unfold natDigitsAux
  simp only [h, if_false]
  rw [natDigitsAux_fuel n (n / 10 + 1) (n / 10) _ (by omega) (by omega)]
  exact natDigitsAux_acc _ _ _ (by omega)

/-- Every character of `natDigits n` is an ASCII digit. -/
theorem natDigits_all_digits (n : Nat) : ∀ c ∈ natDigits n, c.isDigit = true := by
  induction n using Nat.strong_induction_on with
  | _ n ih =>
    by_cases h10 : n < 10
    · rw [natDigits_base n h10]
      intro c hc
      simp at hc
      subst hc
      exact digitChar_isDigit n h10
    · rw [natDigits_decomp n h10]
      intro c hc
      have hd : n / 10 < n := Nat.div_lt_self (by omega) (by omega)
      rcases List.mem_append.mp hc with h | h
      · exact ih (n / 10) hd c h
      · simp at h
        subst h
        exact digitChar_isDigit _ (Nat.mod_lt _ (by omega))

/-- `natDigits` is never empty. -/
theorem natDigits_ne_nil (n : Nat) : natDigits n ≠ [] := by
  by_cases h10 : n < 10
  · rw [natDigits_base n h10]; simp
  · rw [natDigits_decomp n h10]; simp

/-- Folding the decimal digits of `n` back up recovers `n`. -/
theorem natDigits_foldl (n : Nat) :
    (natDigits n).foldl (fun a c => a * 10 + (c.toNat - 48)) 0 = n := by
  induction n using Nat.strong_induction_on with
  | _ n ih =>
    by_cases h10 : n < 10
    · rw [natDigits_base n h10]
      simp [digitChar_toNat n h10]
    · have hd : n / 10 < n := Nat.div_lt_self (by omega) (by omega)
      rw [natDigits_decomp n h10, List.foldl_append, ih (n / 10) hd]
      simp [digitChar_toNat (n % 10) (Nat.mod_lt _ (by omega))]
      omega

/-- Consuming an all-digit block folds its value onto the accumulator. -/
theorem takeDigitsVal_digits (ds : List Char) (tail : List Char) (acc : Nat)
    (h : ∀ c ∈ ds, c.isDigit = true) :
    takeDigitsVal (ds ++ tail) acc
      = takeDigitsVal tail (ds.foldl (fun a c => a * 10 + (c.toNat - 48)) acc) := by
  induction ds generalizing acc with
  | nil => simp
  | cons c cs ih =>
    have hc : c.isDigit = true := h c (List.mem_cons_self c cs)
    have step : takeDigitsVal (c :: (cs ++ tail)) acc
        = takeDigitsVal (cs ++ tail) (acc * 10 + (c.toNat - 48)) := by
      conv_lhs => unfold takeDigitsVal
      simp [hc]
    calc takeDigitsVal ((c :: cs) ++ tail) acc
        = takeDigitsVal (cs ++ tail) (acc * 10 + (c.toNat - 48)) := by
          rw [List.cons_append, step]
      _ = takeDigitsVal tail
            (List.foldl (fun a d => a * 10 + (d.toNat - 48)) (acc * 10 + (c.toNat - 48)) cs) :=
          ih _ (fun d hd => h d (List.mem_cons_of_mem c hd))
      _ = takeDigitsVal tail (List.foldl (fun a d => a * 10 + (d.toNat - 48)) acc (c :: cs)) := by
          rw [List.foldl_cons]

/-- Stripping a literal prefix off itself-plus-tail yields the tail. -/
theorem stripPrefixL_append (p l : List Char) : stripPrefixL p (p ++ l) = some l := by
  induction p with
  | nil => rfl
  | cons c cs ih =>
    show stripPrefixL (c :: cs) (c :: (cs ++ l)) = some l
    unfold stripPrefixL
    simp [ih]

/-- Round trip: a watermark file written by `save_last_run` parses back to
the timestamp that was saved. -/
theorem parseLastRun_save_format (ts : Nat) : parseLastRun (save_format ts) = some ts := by
  unfold parseLastRun save_format
  have hdata : ("\x7b\"last_run\": \"" ++ isoformat ts ++ "\"\x7d").data
      = ("\x7b\"last_run\": \"").data ++ (natDigits ts ++ ['"', '\x7d']) := by
    rw [str_data_append, str_data_append]
    simp [isoformat]
  rw [hdata, stripPrefixL_append]
  obtain ⟨c, cs, hds⟩ : ∃ c cs, natDigits ts = c :: cs := by
    cases h : natDigits ts with
    | nil => exact absurd h (natDigits_ne_nil ts)
    | cons c cs => exact ⟨c, cs, rfl⟩
  rw [hds]
  simp only [List.cons_append]
  have hcd : c.isDigit = true :=
    natDigits_all_digits ts c (by rw [hds]; exact List.mem_cons_self c cs)
  simp only [hcd, if_true]
  rw [show (c :: (cs ++ ['"', '\x7d'])) = (c :: cs) ++ ['"', '\x7d'] from rfl, ← hds]
  rw [takeDigitsVal_digits _ _ _ (natDigits_all_digits ts), natDigits_foldl]
  simp [takeDigitsVal]

/-- String append is associative. -/
theorem str_append_assoc (a b c : String) : a ++ b ++ c = a ++ (b ++ c) := by
  cases a; cases b; cases c
  exact congrArg String.mk (List.append_assoc _ _ _)

/-- Left identity of string append. -/
theorem str_nil_append (s : String) : "" ++ s = s := by
  cases s; rfl

/-- Environment holding exactly the four required variables. -/
def env0 : Env := fun n =>
  if n = "JIRA_BASE_URL" then some "https://example.atlassian.net"
  else if n = "JIRA_EMAIL" then some "dev@example.com"
  else if n = "JIRA_API_TOKEN" then some "token"
  else if n = "JIRA_ASSIGNEE_ACCOUNT_ID" then some "712020:abc"
  else none

/-- The configuration `load_config` produces from `env0` (all optional
variables defaulted). -/
def cfgDefault : Config :=
  { jira_base_url := "https://example.atlassian.net"
    jira_email := "dev@example.com"
    jira_api_token := "token"
    jira_assignee_account_id := "712020:abc"
    project_key := "TS"
    assignee_fallback := "currentUser()"
    status_field_id := "customfield_10353"
    todo_transition := "To-Do"
    in_progress_transition := "Iprogress"
    waiting_transition := "Wating for clinet"
    use_confluence_kb := false
    confluence_base_url := "https://certifyos.atlassian.net/wiki"
    confluence_space_key := "TS"
    openai_api_key := none
    openai_model := "gpt-4o-mini"
    timezone := none
    window_start := ⟨5, 30, 0⟩
    window_end := ⟨17, 30, 0⟩
    last_run_path := "last_run.json" }

/-- Inert world used by several witnesses (noon, no watermark file, empty
search result, every HTTP call succeeding, no transitions listed). -/
def wDummy : World :=
  { now := 216000
    fileContent := fun _ => none
    searchResult := Except.ok []
    commentOk := fun _ => true
    assignOk := fun _ => true
    listTransitionsOk := fun _ => true
    transitionsFor := fun _ => []
    transitionPostOk := fun _ _ => true
    openaiResult := fun _ => Except.error () }

/-- Claim C2: for bounds `[start, end]` and any time-of-day `t`, the window
check returns true iff `start ≤ t ≤ end` when `start ≤ end`, and iff
`t ≥ start ∨ t ≤ end` when `start > end` (window spanning midnight);
comparisons are stated on seconds-since-midnight, with minutes and seconds
in range. -/
theorem c2_within_reply_window_spec (ws we t : PyTime)
    (hws : ws.minute < 60 ∧ ws.second < 60)
    (hwe : we.minute < 60 ∧ we.second < 60)
    (ht : t.minute < 60 ∧ t.second < 60) :
    (ws.toSec ≤ we.toSec →
      (within_reply_window ws we t = true ↔ ws.toSec ≤ t.toSec ∧ t.toSec ≤ we.toSec)) ∧
    (we.toSec < ws.toSec →
      (within_reply_window ws we t = true ↔ (ws.toSec ≤ t.toSec ∨ t.toSec ≤ we.toSec))) := by
  have h1 := pyTime_le_iff_toSec ws we hws hwe
  have h2 := pyTime_le_iff_toSec ws t hws ht
  have h3 := pyTime_le_iff_toSec t we ht hwe
  unfold within_reply_window
  constructor
  · intro hle
    rw [if_pos (h1.mpr hle)]
    simp [Bool.and_eq_true, h2, h3]
  · intro hlt
    rw [if_neg (fun hc => absurd (h1.mp hc) (by omega))]
    simp [Bool.or_eq_true, h2, h3]

/-- Witness for C2: 23:00 lies inside the overnight window 22:00–06:00. -/
theorem c2_witness : within_reply_window ⟨22, 0, 0⟩ ⟨6, 0, 0⟩ ⟨23, 0, 0⟩ = true := by
  have h := (c2_within_reply_window_spec ⟨22, 0, 0⟩ ⟨6, 0, 0⟩ ⟨23, 0, 0⟩
    (by decide) (by decide) (by decide)).2 (by decide)
  exact h.mpr (Or.inl (by decide))

/-- Claim C7: `load_last_run` never raises; a missing file, or any content
the stored-watermark parse rejects, yields `now - 24h`, and a well-formed
file (in particular any file `save_last_run` wrote) yields the stored
timestamp. -/
theorem c7_load_watermark (w : World) (path : String) :
    (w.fileContent path = none → load_last_run w path = w.now - 86400) ∧
    (∀ content, w.fileContent path = some content → parseLastRun content = none →
      load_last_run w path = w.now - 86400) ∧
    (∀ content ts, w.fileContent path = some content → parseLastRun content = some ts →
      load_last_run w path = ts) ∧
    (∀ ts, parseLastRun (save_format ts) = some ts) := by
  refine ⟨?_, ?_, ?_, parseLastRun_save_format⟩ <;>
    (intros; simp_all [load_last_run])

/-- World whose watermark file holds a saved timestamp 777. -/
def w7 : World :=
  { now := 100000
    fileContent := fun _ => some (save_format 777)
    searchResult := Except.ok []
    commentOk := fun _ => true
    assignOk := fun _ => true
    listTransitionsOk := fun _ => true
    transitionsFor := fun _ => []
    transitionPostOk := fun _ _ => true
    openaiResult := fun _ => Except.error () }

/-- Witness for C7: loading the file written for timestamp 777 returns 777. -/
theorem c7_witness : load_last_run w7 "last_run.json" = 777 := by
  have h := c7_load_watermark w7 "last_run.json"
  exact h.2.2.1 (save_format 777) 777 rfl (h.2.2.2 777)

/-- Claim C9: with no generation-API key configured, reply generation makes
no API call and returns exactly the deterministic template with the
ticket's summary substituted; hence the reply contains the summary. -/
theorem c9_default_reply (w : World) (c : Config) (issue : Issue)
    (h : c.openai_api_key = none) :
    generate_ai_reply w c issue
      = ([], Except.ok ("Thanks for reaching out! We received **"
          ++ issue.summary.getD "your ticket"
          ++ "**. Our team will review this shortly and respond with next steps.")) ∧
    (∀ s, issue.summary = some s → ContainsStr (build_default_reply issue) s) := by
  constructor
  · simp [generate_ai_reply, h, build_default_reply]
  · intro s hs
    exact containsStr_of_eq _ "Thanks for reaching out! We received **" s
      "**. Our team will review this shortly and respond with next steps."
      (by simp [build_default_reply, hs])

/-- Witness for C9: the templated reply for summary "Test ticket" contains
"Test ticket". -/
theorem c9_witness :
    ContainsStr (build_default_reply ⟨some "TS-9", some "Test ticket", none⟩) "Test ticket" := by
  exact (c9_default_reply wDummy cfgDefault ⟨some "TS-9", some "Test ticket", none⟩ rfl).2
    "Test ticket" rfl

/-- Claim C10: an issue with a missing or empty `key` is skipped: the loop
behaves as if it were absent, so no call is made for it and it does not
count. -/
theorem c10_skip_missing_key (w : World) (c : Config) (acct : String)
    (issue : Issue) (rest : List Issue)
    (h : issue.key = none ∨ issue.key = some "") :
    process_issues w c (issue :: rest) acct = process_issues w c rest acct := by
  rcases h with h | h <;> simp [process_issues, h]

/-- Witness for C10: a single keyless issue is processed into zero calls
and count 0. -/
theorem c10_witness :
    process_issues wDummy cfgDefault [⟨none, some "No key", none⟩] "712020:abc"
      = ([], Except.ok 0) := by
  rw [c10_skip_missing_key wDummy cfgDefault "712020:abc" ⟨none, some "No key", none⟩ []
    (Or.inl rfl)]
  rfl

/-- Claim C5: transitioning looks the name up among the listed transitions
by exact case-sensitive match; on a match it POSTs the transition's id, on
no match it raises `TransitionNotFoundError` and issues no POST. The
concrete conjuncts check the `\x7b"id":"55","name":"Iprogress"\x7d` case of the
spec. -/
theorem c5_transition_issue (w : World) (key name : String) :
    (∀ t, w.listTransitionsOk key = true →
      findTransition (w.transitionsFor key) name = some t →
      jira_transition_issue w key name
        = ([Call.listTransitions key, Call.transitionPost key t.id],
           if w.transitionPostOk key t.id then Except.ok ()
           else Except.error RunError.ticketingApi)) ∧
    (w.listTransitionsOk key = true →
      findTransition (w.transitionsFor key) name = none →
      jira_transition_issue w key name
        = ([Call.listTransitions key],
           Except.error (RunError.transitionNotFound name key))) ∧
    findTransition [⟨"55", "Iprogress"⟩] "Iprogress" = some ⟨"55", "Iprogress"⟩ ∧
    findTransition [⟨"55", "Iprogress"⟩] "To-Do" = none := by
  refine ⟨?_, ?_, by decide, by decide⟩
  · intro t hlist hfind
    simp [jira_transition_issue, jira_list_transitions, hlist, thenRun, hfind]
  · intro hlist hfind
    simp [jira_transition_issue, jira_list_transitions, hlist, thenRun, hfind]

/-- World offering exactly the transition id 55 named "Iprogress". -/
def w5 : World :=
  { now := 216000
    fileContent := fun _ => none
    searchResult := Except.ok []
    commentOk := fun _ => true
    assignOk := fun _ => true
    listTransitionsOk := fun _ => true
    transitionsFor := fun _ => [⟨"55", "Iprogress"⟩]
    transitionPostOk := fun _ _ => true
    openaiResult := fun _ => Except.error () }

/-- Witness for C5: the matched transition is posted by id 55. -/
theorem c5_witness :
    jira_transition_issue w5 "TS-1" "Iprogress"
      = ([Call.listTransitions "TS-1", Call.transitionPost "TS-1" "55"], Except.ok ()) := by
  have h := (c5_transition_issue w5 "TS-1" "Iprogress").1 ⟨"55", "Iprogress"⟩ rfl rfl
  simpa using h

/-- Configuration whose configured "to-do" transition label is "Start". -/
def cfgStart : Config := { cfgDefault with todo_transition := "Start" }

/-- Counterexample for C3: under a configuration whose configured "to-do"
label is "Start", the built query does not contain `status = "Start"` —
the status clause is hard-coded to `status = "To-Do"`, not taken from the
configuration. -/
theorem c3_counterexample :
    cfgStart.todo_transition = "Start" ∧
    ¬ ContainsStr (searchJql cfgStart 0) ("status = \"" ++ cfgStart.todo_transition ++ "\"") ∧
    ContainsStr (searchJql cfgStart 0) "status = \"To-Do\"" := by
  refine ⟨rfl, ?_, ?_⟩ <;> decide

/-- Claim C3 (amended): for every configuration and watermark, the query
contains `project = "<project key>"`, the empty-assignee clause, the
hard-coded clause `status = "To-Do"`, the status-category clause, and an
`updated >= "<watermark>"` clause carrying the supplied watermark, and it
ends with `ORDER BY created ASC`. -/
theorem c3_search_jql_contents (c : Config) (ts : Nat) :
    ContainsStr (searchJql c ts) ("project = \"" ++ c.project_key ++ "\"") ∧
    ContainsStr (searchJql c ts) "assignee is EMPTY" ∧
    ContainsStr (searchJql c ts) "status = \"To-Do\"" ∧
    ContainsStr (searchJql c ts) "statusCategory != Done" ∧
    ContainsStr (searchJql c ts) ("updated >= \"" ++ isoformat ts ++ "\"") ∧
    (∃ p : String, searchJql c ts = p ++ "ORDER BY created ASC") := by
  have l0 : ("\" " : String) = "\"" ++ " " := by decide
  have l2 : ("AND assignee is EMPTY " : String) = "AND " ++ "assignee is EMPTY" ++ " " := by
    decide
  have l3 : ("AND status = \"To-Do\" " : String)
      = "AND " ++ "status = \"To-Do\"" ++ " " := by decide
  have l4 : ("AND statusCategory != Done " : String)
      = "AND " ++ "statusCategory != Done" ++ " " := by decide
  have l5 : ("AND updated >= \"" : String) = "AND " ++ "updated >= \"" := by decide
  refine ⟨?_, ?_, ?_, ?_, ?_, ?_⟩
  · apply containsStr_of_eq _ "" ("project = \"" ++ c.project_key ++ "\"")
      (" " ++ ("AND assignee is EMPTY " ++ ("AND status = \"To-Do\" "
        ++ ("AND statusCategory != Done "
          ++ (("AND updated >= \"" ++ isoformat ts ++ "\" ") ++ "ORDER BY created ASC")))))
    unfold searchJql
    rw [l0, str_nil_append]
    simp only [str_append_assoc]
  · apply containsStr_of_eq _ (("project = \"" ++ c.project_key ++ "\" ") ++ "AND ")
      "assignee is EMPTY"
      (" " ++ ("AND status = \"To-Do\" " ++ ("AND statusCategory != Done "
        ++ (("AND updated >= \"" ++ isoformat ts ++ "\" ") ++ "ORDER BY created ASC"))))
    unfold searchJql
    rw [l2]
    simp only [str_append_assoc]
  · apply containsStr_of_eq _
      (("project = \"" ++ c.project_key ++ "\" ") ++ ("AND assignee is EMPTY " ++ "AND "))
      "status = \"To-Do\""
      (" " ++ ("AND statusCategory != Done "
        ++ (("AND updated >= \"" ++ isoformat ts ++ "\" ") ++ "ORDER BY created ASC")))
    unfold searchJql
    rw [l3]
    simp only [str_append_assoc]
  · apply containsStr_of_eq _
      (("project = \"" ++ c.project_key ++ "\" ")
        ++ ("AND assignee is EMPTY " ++ ("AND status = \"To-Do\" " ++ "AND ")))
      "statusCategory != Done"
      (" " ++ (("AND updated >= \"" ++ isoformat ts ++ "\" ") ++ "ORDER BY created ASC"))
    unfold searchJql
    rw [l4]
    simp only [str_append_assoc]
  · apply containsStr_of_eq _
      (("project = \"" ++ c.project_key ++ "\" ")
        ++ ("AND assignee is EMPTY " ++ ("AND status = \"To-Do\" "
          ++ ("AND statusCategory != Done " ++ "AND "))))
      ("updated >= \"" ++ isoformat ts ++ "\"")
      (" " ++ "ORDER BY created ASC")
    unfold searchJql
    rw [l5, l0]
    simp only [str_append_assoc]
  · refine ⟨("project = \"" ++ c.project_key ++ "\" ") ++ "AND assignee is EMPTY "
      ++ "AND status = \"To-Do\" " ++ "AND statusCategory != Done "
      ++ ("AND updated >= \"" ++ isoformat ts ++ "\" "), ?_⟩
    unfold searchJql
    rfl

/-- Digit characters are not the separator `':'`. -/
theorem digitChar_ne_colon (r : Nat) (h : r < 10) : digitChar r ≠ ':' := by
  unfold digitChar; interval_cases r <;> decide

/-- Digit characters are not a sign `'+'`. -/
theorem digitChar_ne_plus (r : Nat) (h : r < 10) : digitChar r ≠ '+' := by
  unfold digitChar; interval_cases r <;> decide

/-- Digit characters are not a sign `'-'`. -/
theorem digitChar_ne_minus (r : Nat) (h : r < 10) : digitChar r ≠ '-' := by
  unfold digitChar; interval_cases r <;> decide

/-- Digit characters are not `'_'`. -/
theorem digitChar_ne_underscore (r : Nat) (h : r < 10) : digitChar r ≠ '_' := by
  unfold digitChar; interval_cases r <;> decide

/-- Digit characters are not whitespace. -/
theorem digitChar_not_ws (r : Nat) (h : r < 10) : pyWhitespace (digitChar r) = false := by
  unfold digitChar pyWhitespace; interval_cases r <;> decide

/-- The canonical zero-padded `"HH:MM"` rendering of a time of day. -/
def fmtHHMM (h m : Nat) : String :=
  ⟨[digitChar (h / 10), digitChar (h % 10), ':', digitChar (m / 10), digitChar (m % 10)]⟩

/-- `int()` on a two-digit group evaluates to its decimal value. -/
theorem pyIntL_two_digits (a b : Nat) (ha : a < 10) (hb : b < 10) :
    pyIntL [digitChar a, digitChar b] = some ((10 * a + b : Nat) : Int) := by
  have htrim : pyTrimL [digitChar a, digitChar b] = [digitChar a, digitChar b] := by
    simp [pyTrimL, List.dropWhile, digitChar_not_ws a ha, digitChar_not_ws b hb]
  unfold pyIntL
  rw [htrim]
  simp [digitChar_ne_plus a ha, digitChar_ne_minus a ha, digitsValL,
        digitChar_isDigit a ha, digitsCont, digitChar_ne_underscore b hb,
        digitChar_isDigit b hb, digitChar_toNat a ha, digitChar_toNat b hb]
  omega

/-- Parsing the canonical `"HH:MM"` rendering of an in-range time of day
yields exactly that time. -/
theorem parse_time_raw_fmt (name : String) (h m : Nat) (hh : h < 24) (hm : m < 60) :
    parse_time_raw name (fmtHHMM h m) = Except.ok ⟨h, m, 0⟩ := by
  have hsplit : splitChar ':' (fmtHHMM h m).data
      = [[digitChar (h / 10), digitChar (h % 10)],
         [digitChar (m / 10), digitChar (m % 10)]] := by
    show splitChar ':'
        [digitChar (h / 10), digitChar (h % 10), ':', digitChar (m / 10), digitChar (m % 10)]
      = _
    simp [splitChar, digitChar_ne_colon (h / 10) (by omega),
          digitChar_ne_colon (h % 10) (by omega), digitChar_ne_colon (m / 10) (by omega),
          digitChar_ne_colon (m % 10) (by omega)]
  unfold parse_time_raw
  rw [hsplit]
  have e1 : (10 * (h / 10) + h % 10 : Nat) = h := by omega
  have e2 : (10 * (m / 10) + m % 10 : Nat) = m := by omega
  simp only [pyIntL_two_digits (h / 10) (h % 10) (by omega) (by omega),
             pyIntL_two_digits (m / 10) (m % 10) (by omega) (by omega), e1, e2]
  rw [if_pos (by omega)]
  simp

/-- Every error raised by the time parser carries the standard message
naming the variable and the raw value. -/
theorem parse_time_raw_error_msg (name raw msg : String)
    (h : parse_time_raw name raw = Except.error msg) :
    msg = "Invalid time value for " ++ name ++ ": " ++ raw := by
  unfold parse_time_raw at h
  repeat' split at h
  all_goals simp_all

/-- Claim C4: parsing a well-formed `"HH:MM"` value returns the
corresponding time of day, and a malformed value fails with an error whose
message names the offending variable ("06:15" and "not-a-time" are the
spec's concrete cases). -/
theorem c4_parse_time_spec :
    (∀ (env : Env) (name dv : String) (h m : Nat), h < 24 → m < 60 →
      env name = some (fmtHHMM h m) →
      parse_time_env env name dv = Except.ok ⟨h, m, 0⟩) ∧
    (∀ name raw msg, parse_time_raw name raw = Except.error msg → ContainsStr msg name) ∧
    parse_time_raw "WINDOW_START" "06:15" = Except.ok ⟨6, 15, 0⟩ ∧
    parse_time_raw "WINDOW_START" "not-a-time"
      = Except.error "Invalid time value for WINDOW_START: not-a-time" ∧
    ContainsStr "Invalid time value for WINDOW_START: not-a-time" "WINDOW_START" := by
  refine ⟨?_, ?_, by decide, by decide, by decide⟩
  · intro env name dv h m hh hm henv
    unfold parse_time_env
    rw [henv]
    simp only [Option.getD_some]
    exact parse_time_raw_fmt name h m hh hm
  · intro name raw msg h
    rw [parse_time_raw_error_msg name raw msg h]
    apply containsStr_of_eq _ "Invalid time value for " name (": " ++ raw)
    simp only [str_append_assoc]

/-- Environment setting `WINDOW_START` to the rendering of 06:15. -/
def env4 : Env := fun n => if n = "WINDOW_START" then some (fmtHHMM 6 15) else none

/-- Witness for C4: `WINDOW_START=06:15` parses to the time 06:15. -/
theorem c4_witness : parse_time_env env4 "WINDOW_START" "05:30" = Except.ok ⟨6, 15, 0⟩ :=
  c4_parse_time_spec.1 env4 "WINDOW_START" "05:30" 6 15 (by decide) (by decide) rfl

/-- Claim C6: for a candidate ticket, the steps are generate reply (no
HTTP call without an API key), add comment, assign, then the three
configured transitions in the fixed order to-do→in-progress,
in-progress→waiting, waiting→in-progress; one candidate yields exactly one
comment call, one assign call, three transition POSTs, and count 1. -/
theorem c6_process_order (w : World) (c : Config) (acct key : String) (issue : Issue)
    (t1 t2 t3 : Transition)
    (hk : issue.key = some key) (hk0 : key ≠ "")
    (hai : c.openai_api_key = none)
    (hcm : w.commentOk key = true) (has : w.assignOk key = true)
    (hlt : w.listTransitionsOk key = true)
    (h1 : findTransition (w.transitionsFor key) c.todo_transition = some t1)
    (hp1 : w.transitionPostOk key t1.id = true)
    (h2 : findTransition (w.transitionsFor key) c.in_progress_transition = some t2)
    (hp2 : w.transitionPostOk key t2.id = true)
    (h3 : findTransition (w.transitionsFor key) c.waiting_transition = some t3)
    (hp3 : w.transitionPostOk key t3.id = true) :
    process_issues w c [issue] acct
      = ([Call.addComment key (build_default_reply issue),
          Call.assignIssue key acct,
          Call.listTransitions key, Call.transitionPost key t1.id,
          Call.listTransitions key, Call.transitionPost key t2.id,
          Call.listTransitions key, Call.transitionPost key t3.id], Except.ok 1) ∧
    (process_issues w c [issue] acct).1.countP
        (fun x => match x with | Call.addComment _ _ => true | _ => false) = 1 ∧
    (process_issues w c [issue] acct).1.countP
        (fun x => match x with | Call.assignIssue _ _ => true | _ => false) = 1 ∧
    (process_issues w c [issue] acct).1.countP
        (fun x => match x with | Call.transitionPost _ _ => true | _ => false) = 3 ∧
    (process_issues w c [issue] acct).2 = Except.ok 1 := by
  have hmain : process_issues w c [issue] acct
      = ([Call.addComment key (build_default_reply issue),
          Call.assignIssue key acct,
          Call.listTransitions key, Call.transitionPost key t1.id,
          Call.listTransitions key, Call.transitionPost key t2.id,
          Call.listTransitions key, Call.transitionPost key t3.id], Except.ok 1) := by
    simp [process_issues, hk, hk0, process_issue, generate_ai_reply, hai,
          jira_add_comment, hcm, jira_assign_issue, has, jira_transition_issue,
          jira_list_transitions, hlt, h1, hp1, h2, hp2, h3, hp3, thenRun]
  refine ⟨hmain, ?_, ?_, ?_, ?_⟩ <;> rw [hmain] <;> simp [List.countP_cons]

/-- World offering the three default-named transitions, every call
succeeding. -/
def w6 : World :=
  { now := 216000
    fileContent := fun _ => none
    searchResult := Except.ok [⟨some "TS-1", some "Help", none⟩]
    commentOk := fun _ => true
    assignOk := fun _ => true
    listTransitionsOk := fun _ => true
    transitionsFor := fun _ => [⟨"11", "To-Do"⟩, ⟨"21", "Iprogress"⟩, ⟨"31", "Wating for clinet"⟩]
    transitionPostOk := fun _ _ => true
    openaiResult := fun _ => Except.error () }

/-- Witness for C6: one concrete candidate is processed into the expected
call sequence with count 1. -/
theorem c6_witness :
    process_issues w6 cfgDefault [⟨some "TS-1", some "Help", none⟩] "712020:abc"
      = ([Call.addComment "TS-1" (build_default_reply ⟨some "TS-1", some "Help", none⟩),
          Call.assignIssue "TS-1" "712020:abc",
          Call.listTransitions "TS-1", Call.transitionPost "TS-1" "11",
          Call.listTransitions "TS-1", Call.transitionPost "TS-1" "21",
          Call.listTransitions "TS-1", Call.transitionPost "TS-1" "31"], Except.ok 1) :=
  (c6_process_order w6 cfgDefault "712020:abc" "TS-1" ⟨some "TS-1", some "Help", none⟩
    ⟨"11", "To-Do"⟩ ⟨"21", "Iprogress"⟩ ⟨"31", "Wating for clinet"⟩
    rfl (by decide) rfl rfl rfl rfl (by decide) rfl (by decide) rfl (by decide) rfl).1

/-- A defaulted `get_env` never fails. -/
theorem get_env_default (env : Env) (name d : String) :
    get_env env name (some d) = Except.ok ((env name).getD d) := by
  unfold get_env
  cases env name <;> rfl

/-- A successful required `get_env` means the variable was set. -/
theorem get_env_req_isSome (env : Env) (name : String) {v : String}
    (h : get_env env name none = Except.ok v) : (env name).isSome := by
  unfold get_env at h
  cases he : env name with
  | none => rw [he] at h; exact absurd h (by simp)
  | some x => simp

/-- A successful `load_config` implies all four required variables were
present in the environment. -/
theorem load_config_ok_required (env : Env) (c : Config)
    (h : load_config env = Except.ok c) :
    (env "JIRA_BASE_URL").isSome ∧ (env "JIRA_EMAIL").isSome ∧
    (env "JIRA_API_TOKEN").isSome ∧ (env "JIRA_ASSIGNEE_ACCOUNT_ID").isSome := by
  unfold load_config at h
  repeat' split at h
  all_goals try exact Except.noConfusion h
  exact ⟨get_env_req_isSome _ _ (by assumption), get_env_req_isSome _ _ (by assumption),
    get_env_req_isSome _ _ (by assumption), get_env_req_isSome _ _ (by assumption)⟩

/-- Claim C8: with any required variable absent, configuration loading
fails, `main` prints the error and returns exit status 1 without any
network call or watermark write; with the required variables present and
the optional ones unset, loading succeeds with the documented defaults
(window 05:30–17:30 among them). -/
theorem c8_config_loading :
    (∀ (env : Env) (w : World) (name : String),
      (name = "JIRA_BASE_URL" ∨ name = "JIRA_EMAIL" ∨ name = "JIRA_API_TOKEN" ∨
        name = "JIRA_ASSIGNEE_ACCOUNT_ID") →
      env name = none →
      ∃ msg, load_config env = Except.error msg ∧
        main_run env w = ⟨Except.ok 1, [], none, [msg]⟩) ∧
    (∀ (env : Env) (b e t a : String),
      env "JIRA_BASE_URL" = some b → env "JIRA_EMAIL" = some e →
      env "JIRA_API_TOKEN" = some t → env "JIRA_ASSIGNEE_ACCOUNT_ID" = some a →
      (∀ n, n ≠ "JIRA_BASE_URL" → n ≠ "JIRA_EMAIL" → n ≠ "JIRA_API_TOKEN" →
        n ≠ "JIRA_ASSIGNEE_ACCOUNT_ID" → env n = none) →
      load_config env = Except.ok
        { jira_base_url := b, jira_email := e, jira_api_token := t,
          jira_assignee_account_id := a, project_key := "TS",
          assignee_fallback := "currentUser()", status_field_id := "customfield_10353",
          todo_transition := "To-Do", in_progress_transition := "Iprogress",
          waiting_transition := "Wating for clinet", use_confluence_kb := false,
          confluence_base_url := "https://certifyos.atlassian.net/wiki",
          confluence_space_key := "TS", openai_api_key := none,
          openai_model := "gpt-4o-mini", timezone := none,
          window_start := ⟨5, 30, 0⟩, window_end := ⟨17, 30, 0⟩,
          last_run_path := "last_run.json" }) := by
  constructor
  · intro env w name hname hnone
    cases hlc : load_config env with
    | error msg => exact ⟨msg, rfl, by simp [main_run, hlc]⟩
    | ok c =>
      exfalso
      have hreq := load_config_ok_required env c hlc
      rcases hname with h | h | h | h <;> subst h <;> simp [hnone] at hreq
  · intro env b e t a hb he ht ha hopt
    have h01 : env "WINDOW_START" = none := hopt _ (by decide) (by decide) (by decide) (by decide)
    have h02 : env "WINDOW_END" = none := hopt _ (by decide) (by decide) (by decide) (by decide)
    have h03 : env "PROJECT_KEY" = none := hopt _ (by decide) (by decide) (by decide) (by decide)
    have h04 : env "ASSIGNEE_FALLBACK" = none :=
      hopt _ (by decide) (by decide) (by decide) (by decide)
    have h05 : env "STATUS_FIELD_ID" = none :=
      hopt _ (by decide) (by decide) (by decide) (by decide)
    have h06 : env "STATUS_TRANSITION_TODO_TO_IN_PROGRESS" = none :=
      hopt _ (by decide) (by decide) (by decide) (by decide)
    have h07 : env "STATUS_TRANSITION_IN_PROGRESS_TO_WAITING" = none :=
      hopt _ (by decide) (by decide) (by decide) (by decide)
    have h08 : env "STATUS_TRANSITION_WAITING_TO_IN_PROGRESS" = none :=
      hopt _ (by decide) (by decide) (by decide) (by decide)
    have h09 : env "USE_CONFLUENCE_KB" = none :=
      hopt _ (by decide) (by decide) (by decide) (by decide)
    have h10 : env "CONFLUENCE_BASE_URL" = none :=
      hopt _ (by decide) (by decide) (by decide) (by decide)
    have h11 : env "CONFLUENCE_SPACE_KEY" = none :=
      hopt _ (by decide) (by decide) (by decide) (by decide)
    have h12 : env "OPENAI_MODEL" = none := hopt _ (by decide) (by decide) (by decide) (by decide)
    have h13 : env "LAST_RUN_PATH" = none := hopt _ (by decide) (by decide) (by decide) (by decide)
    have h14 : env "OPENAI_API_KEY" = none := hopt _ (by decide) (by decide) (by decide) (by decide)
    have h15 : env "TIMEZONE" = none := hopt _ (by decide) (by decide) (by decide) (by decide)
    have p1 : parse_time_raw "WINDOW_START" "05:30" = Except.ok ⟨5, 30, 0⟩ := by decide
    have p2 : parse_time_raw "WINDOW_END" "17:30" = Except.ok ⟨17, 30, 0⟩ := by decide
    have hkb : (pyLower "false" == "true") = false := by decide
    simp [load_config, parse_time_env, get_env, hb, he, ht, ha,
          h01, h02, h03, h04, h05, h06, h07, h08, h09, h10, h11, h12, h13, h14, h15,
          p1, p2, hkb]

/-- Witness for C8: with an empty environment the run exits with status 1,
printing only the configuration error, making no calls and writing no
watermark. -/
theorem c8_witness :
    ∃ msg, main_run (fun _ => none) wDummy = ⟨Except.ok 1, [], none, [msg]⟩ := by
  obtain ⟨msg, _, hrun⟩ :=
    c8_config_loading.1 (fun _ => none) wDummy "JIRA_BASE_URL" (Or.inl rfl) rfl
  exact ⟨msg, hrun⟩

/-- World for an aborted run: the search returns one candidate and the
ticket has no available transitions, so the first transition lookup fails
after the comment and assignment succeeded. -/
def w1 : World :=
  { now := 216000
    fileContent := fun _ => none
    searchResult := Except.ok [⟨some "TS-1", some "Printer broken", none⟩]
    commentOk := fun _ => true
    assignOk := fun _ => true
    listTransitionsOk := fun _ => true
    transitionsFor := fun _ => []
    transitionPostOk := fun _ _ => true
    openaiResult := fun _ => Except.error () }

/-- Counterexample for C1: a run that enters processing (the comment and
assign calls were issued) aborts on a transition-not-found error, and the
run ends with the uncaught error while the watermark is never written —
contradicting the claim that the watermark file is still overwritten
before the run ends. -/
theorem c1_counterexample :
    (main_run env0 w1).outcome = Except.error (RunError.transitionNotFound "To-Do" "TS-1") ∧
    (main_run env0 w1).saved = none ∧
    (main_run env0 w1).calls
      = [Call.searchIssues "project = \"TS\" AND assignee is EMPTY AND status = \"To-Do\" AND statusCategory != Done AND updated >= \"129600\" ORDER BY created ASC",
         Call.addComment "TS-1" "Thanks for reaching out! We received **Printer broken**. Our team will review this shortly and respond with next steps.",
         Call.assignIssue "TS-1" "712020:abc",
         Call.listTransitions "TS-1"] := by
  refine ⟨?_, ?_, ?_⟩ <;> decide

/-- Claim C1 (amended): when a run enters processing, the watermark is
persisted (with the run's current time) exactly when `process_issues`
returns without an uncaught error; a ticketing-API, generation-API, or
transition-not-found error aborting the batch propagates out of `main` and
the run ends without touching the watermark file. -/
theorem c1_watermark_amended (env : Env) (w : World) (c : Config) (issues : List Issue)
    (hlc : load_config env = Except.ok c)
    (hwin : within_reply_window c.window_start c.window_end (timeOfDay w.now) = true)
    (hsearch : w.searchResult = Except.ok issues)
    (hne : issues ≠ []) :
    (∀ n, (process_issues w c issues c.jira_assignee_account_id).2 = Except.ok n →
      (main_run env w).saved = some w.now ∧ (main_run env w).outcome = Except.ok 0) ∧
    (∀ e, (process_issues w c issues c.jira_assignee_account_id).2 = Except.error e →
      (main_run env w).saved = none ∧ (main_run env w).outcome = Except.error e) := by
  cases issues with
  | nil => exact absurd rfl hne
  | cons i rest =>
    rcases hp : process_issues w c (i :: rest) c.jira_assignee_account_id with ⟨pc, r⟩
    constructor
    · intro n hn
      simp at hn
      subst hn
      simp [main_run, hlc, hwin, jira_search_issues, hsearch, hp]
    · intro e hEr
      simp at hEr
      subst hEr
      simp [main_run, hlc, hwin, jira_search_issues, hsearch, hp]

/-- World identical to `w1` except the three default-named transitions are
available, so the batch completes. -/
def w2 : World :=
  { w1 with transitionsFor :=
      fun _ => [⟨"11", "To-Do"⟩, ⟨"21", "Iprogress"⟩, ⟨"31", "Wating for clinet"⟩] }

/-- Witness for C1 (amended): a batch that completes persists the
watermark with the run's current time and exits 0. -/
theorem c1_witness :
    (main_run env0 w2).saved = some 216000 ∧ (main_run env0 w2).outcome = Except.ok 0 := by
  have h := (c1_watermark_amended env0 w2 cfgDefault
    [⟨some "TS-1", some "Printer broken", none⟩]
    (by decide) (by decide) rfl (by decide)).1 1 (by decide)
  exact h
